import Mathlib

/-!
Shallow embedding of the charge-cycle controller in
`src/TestBench/src/main.cpp` (ESP32_API_TestBench).

The mutable globals `isCharging`, `chargeStartTime`, `chargeDurationMs`
together with the physical level of `CHARGE_PIN` form the state.  The
HTTP handlers `handleCharge`, `handleState`, `handleStop` and the loop
function `monitorChargeState` are modelled as pure functions from that
state (plus the current `millis()` reading and the request argument) to
a result, a successor state and the list of `digitalWrite` levels issued
during the call, in order.  `millis()` returns `unsigned long`, which is
32 bits on the ESP32, so clock readings live in `[0, 2^32)` and the
subtraction `millis() - chargeStartTime` is modular.
-/

/-- `2^32`: modulus of the 32-bit `unsigned long` used by `millis()`. -/
def ulMod : Nat := 4294967296

/-- Unsigned 32-bit subtraction `a - b`, as C computes it on
`unsigned long` operands already reduced mod `2^32`. -/
def usub (a b : Nat) : Nat := (a + ulMod - b) % ulMod

/-- The controller state: the three globals of `main.cpp` plus the
physical level of `CHARGE_PIN` (`true` = HIGH, `false` = LOW). -/
structure SystemState where
  isCharging : Bool
  chargeStartTime : Nat
  chargeDurationMs : Nat
  pinHigh : Bool
deriving DecidableEq, Repr

/-- State after `setup()`: not charging, timers zero-initialised, pin
driven LOW (lines 32-34 and 262-263 of `main.cpp`). -/
def initialState : SystemState :=
  { isCharging := false, chargeStartTime := 0, chargeDurationMs := 0,
    pinHigh := false }

/-- Accumulates the decimal digits at the head of the list onto `acc`,
stopping at the first non-digit, exactly as `atol` consumes digits. -/
def parseDigits : List Char → Nat → Nat
  | [], acc => acc
  | c :: cs, acc =>
      if c.isDigit then parseDigits cs (acc * 10 + (c.toNat - 48)) else acc

/-- The six characters C's `isspace` accepts: space, `\t`, `\n`, `\v`
(0x0B), `\f` (0x0C) and `\r`. -/
def isCSpace (c : Char) : Bool :=
  c = ' ' ∨ c = '\t' ∨ c = '\n' ∨ c = '\x0b' ∨ c = '\x0c' ∨ c = '\r'

/-- Core of `atol`: skip leading `isspace` whitespace, accept one
optional sign, then read digits; yields 0 when no digits follow. -/
def atolCore : List Char → Int
  | [] => 0
  | c :: cs =>
      if isCSpace c then atolCore cs
      else if c = '-' then -(parseDigits cs 0 : Int)
      else if c = '+' then (parseDigits cs 0 : Int)
      else if c.isDigit then (parseDigits cs (c.toNat - 48) : Int)
      else 0

/-- `String.toInt()` of the Arduino `String` class, which delegates to
`atol`: the value of `server.arg("time").toInt()` on line 122. -/
def arduinoToInt (s : String) : Int := atolCore s.data

/-- Outcome of `handleCharge`, one constructor per `server.send` call
(409 conflict, 400 missing parameter, 400 out of range, 200 success). -/
inductive ChargeResult where
  | conflictInProgress
  | missingTimeParam
  | timeOutOfRange
  | success (requestedTime : Int)
deriving DecidableEq, Repr

/-- HTTP status code sent for each `handleCharge` outcome. -/
def ChargeResult.httpCode : ChargeResult → Nat
  | .conflictInProgress => 409
  | .missingTimeParam => 400
  | .timeOutOfRange => 400
  | .success _ => 200

/-- Result, successor state and ordered `digitalWrite` levels of one
`handleCharge` call. -/
structure ChargeOutcome where
  result : ChargeResult
  state : SystemState
  writes : List Bool
deriving DecidableEq, Repr

/-- `handleCharge` (lines 108-142): reject while charging, reject a
missing `time` argument, parse with `toInt`, enforce `[100, 60000]`,
otherwise set the globals, drive the pin HIGH and report success. -/
def handleCharge (s : SystemState) (now : Nat) (timeArg : Option String) :
    ChargeOutcome :=
  if s.isCharging then
    { result := .conflictInProgress, state := s, writes := [] }
  else
    match timeArg with
    | none => { result := .missingTimeParam, state := s, writes := [] }
    | some str =>
        let requestedTime := arduinoToInt str
        if requestedTime < 100 ∨ requestedTime > 60000 then
          { result := .timeOutOfRange, state := s, writes := [] }
        else
          { result := .success requestedTime,
            state := { isCharging := true, chargeStartTime := now,
                       chargeDurationMs := requestedTime.toNat,
                       pinHigh := true },
            writes := [true] }

/-- `millis() - chargeStartTime` of lines 150 and 225. -/
def timeElapsed (s : SystemState) (now : Nat) : Nat :=
  usub now s.chargeStartTime

/-- The ternary of line 152: remaining time, clamped at zero. -/
def timeRemaining (s : SystemState) (now : Nat) : Nat :=
  if s.chargeDurationMs > timeElapsed s now then
    s.chargeDurationMs - timeElapsed s now
  else 0

/-- JSON body sent by `handleState`: either the charging report (whose
`gpio_level` field is the literal string HIGH) or the idle report
carrying the `digitalRead` of the pin. -/
inductive StateResponse where
  | charging (gpioHigh : Bool) (durationMs : Nat) (timeRemainingMs : Nat)
  | idle (gpioHigh : Bool)
deriving DecidableEq, Repr

/-- `handleState` (lines 147-166): while charging, report HIGH with the
stored duration and the clamped remaining time; while idle, report the
live `digitalRead` of the pin. -/
def handleState (s : SystemState) (now : Nat) : StateResponse :=
  if s.isCharging then
    .charging true s.chargeDurationMs (timeRemaining s now)
  else
    .idle s.pinHigh

/-- Outcome of `handleStop`; both constructors answer HTTP 200. -/
inductive StopResult where
  | stoppedCharging
  | confirmedIdle
deriving DecidableEq, Repr

/-- HTTP status code sent for each `handleStop` outcome. -/
def StopResult.httpCode : StopResult → Nat
  | .stoppedCharging => 200
  | .confirmedIdle => 200

/-- Result, successor state and ordered `digitalWrite` levels of one
`handleStop` call. -/
structure StopOutcome where
  result : StopResult
  state : SystemState
  writes : List Bool
deriving DecidableEq, Repr

/-- `handleStop` (lines 171-182): drive the pin LOW in either branch;
clear `isCharging` when it was set; always answer success. -/
def handleStop (s : SystemState) : StopOutcome :=
  if s.isCharging then
    { result := .stoppedCharging,
      state := { s with isCharging := false, pinHigh := false },
      writes := [false] }
  else
    { result := .confirmedIdle,
      state := { s with pinHigh := false },
      writes := [false] }

/-- Successor state and ordered `digitalWrite` levels of one
`monitorChargeState` call. -/
structure TickOutcome where
  state : SystemState
  writes : List Bool
deriving DecidableEq, Repr

/-- `monitorChargeState` (lines 221-231): while charging, once the
modular elapsed time reaches the duration, drive the pin LOW and clear
`isCharging`; otherwise do nothing. -/
def monitorChargeState (s : SystemState) (now : Nat) : TickOutcome :=
  if s.isCharging then
    if timeElapsed s now ≥ s.chargeDurationMs then
      { state := { s with isCharging := false, pinHigh := false },
        writes := [false] }
    else
      { state := s, writes := [] }
  else
    { state := s, writes := [] }

example : arduinoToInt "500" = 500 := by decide
example : arduinoToInt "abc" = 0 := by decide
example : arduinoToInt "-5" = -5 := by decide
example : arduinoToInt "" = 0 := by decide
example : arduinoToInt " 42x" = 42 := by decide
example : arduinoToInt "\x0b100" = 100 := by decide
example : arduinoToInt "\x0c100" = 100 := by decide
example :
    handleCharge initialState 7 (some "500") =
      { result := .success 500,
        state := { isCharging := true, chargeStartTime := 7,
                   chargeDurationMs := 500, pinHigh := true },
        writes := [true] } := by decide
example : usub 104 4294967200 = 200 := by decide

/-- Reading a wrapping 32-bit clock at two absolute instants less than a
full wrap apart, the unsigned subtraction of the readings recovers the
true elapsed time. -/
theorem usub_mod_eq (T t : Nat) (h1 : T ≤ t) (h2 : t - T < ulMod) :
    usub (t % ulMod) (T % ulMod) = t - T := by
  simp only [usub, ulMod] at *
  omega

/-- Reduction of `handleCharge` when no cycle is in progress and the
`time` argument is present: everything hinges on the range test of the
parsed value. -/
theorem handleCharge_idle_some (s : SystemState) (now : Nat) (str : String)
    (hidle : s.isCharging = false) :
    handleCharge s now (some str) =
      if arduinoToInt str < 100 ∨ arduinoToInt str > 60000 then
        { result := .timeOutOfRange, state := s, writes := [] }
      else
        { result := .success (arduinoToInt str),
          state := SystemState.mk true now (arduinoToInt str).toNat true,
          writes := [true] } := by
  simp [handleCharge, hidle]

/-- C1: `start` succeeds only from Idle; while Charging it answers the
409 conflict and leaves the whole state, the pin included, unchanged,
with no pin write. -/
theorem charge_mutual_exclusion (s : SystemState) (now : Nat)
    (arg : Option String) :
    (s.isCharging = true →
        handleCharge s now arg =
          { result := .conflictInProgress, state := s, writes := [] }) ∧
    (∀ v : Int, (handleCharge s now arg).result = .success v →
        s.isCharging = false) := by
  constructor
  · intro h
    simp [handleCharge, h]
  · intro v h
    cases hci : s.isCharging
    · rfl
    · simp [handleCharge, hci] at h

/-- C1 witness: a concrete `start` during a live cycle is rejected with
the state untouched. -/
theorem charge_mutual_exclusion_witness :
    handleCharge ⟨true, 0, 500, true⟩ 3 (some "200") =
      { result := .conflictInProgress, state := ⟨true, 0, 500, true⟩,
        writes := [] } :=
  (charge_mutual_exclusion ⟨true, 0, 500, true⟩ 3 (some "200")).1 rfl

/-- C2: after an accepted `start` whose clock reading was taken at
absolute time `T`, a tick whose reading is taken at absolute time
`t ≥ T` (less than a clock wrap later) completes the cycle with exactly
one LOW write when `t - T` reaches the accepted duration, does nothing
and writes nothing before that, and a tick in the Idle phase never
changes anything nor writes the pin. -/
theorem tick_autonomous_completion (s s1 : SystemState) (T t : Nat)
    (str : String) (v : Int) (w : List Bool)
    (hstart : handleCharge s (T % ulMod) (some str) =
        { result := .success v, state := s1, writes := w })
    (hTt : T ≤ t) (hwin : t - T < ulMod) :
    (t - T ≥ v.toNat →
        monitorChargeState s1 (t % ulMod) =
          { state := { s1 with isCharging := false, pinHigh := false },
            writes := [false] }) ∧
    (t - T < v.toNat →
        monitorChargeState s1 (t % ulMod) = { state := s1, writes := [] }) ∧
    (∀ s2 : SystemState, ∀ n : Nat, s2.isCharging = false →
        monitorChargeState s2 n = { state := s2, writes := [] }) := by
  have hs1 : s1 = SystemState.mk true (T % ulMod) v.toNat true := by
    cases hci : s.isCharging
    · simp only [handleCharge, hci, Bool.false_eq_true, if_false] at hstart
      split at hstart
      · exact absurd (congrArg ChargeOutcome.result hstart) (by simp)
      · obtain ⟨h1, h2, h3⟩ := ChargeOutcome.mk.inj hstart
        obtain rfl : arduinoToInt str = v := ChargeResult.success.inj h1
        exact h2.symm
    · simp [handleCharge, hci] at hstart
  have helapsed :
      timeElapsed s1 (t % ulMod) = t - T := by
    rw [hs1]
    exact usub_mod_eq T t hTt hwin
  refine ⟨?_, ?_, ?_⟩
  · intro hdue
    rw [monitorChargeState, hs1]
    simp only [if_true]
    rw [← hs1, helapsed, hs1]
    simp [hdue]
  · intro hearly
    rw [monitorChargeState, hs1]
    simp only [if_true]
    rw [← hs1, helapsed, hs1]
    simp [Nat.not_le.mpr hearly, hearly]
  · intro s2 n h2
    simp [monitorChargeState, h2]

/-- C2 witness: a cycle started at reading 1000 for 500 ms is completed
by a tick at reading 1600 with a single LOW write. -/
theorem tick_autonomous_completion_witness :
    monitorChargeState ⟨true, 1000, 500, true⟩ (1600 % ulMod) =
      { state := ⟨false, 1000, 500, false⟩, writes := [false] } :=
  (tick_autonomous_completion initialState ⟨true, 1000, 500, true⟩ 1000 1600
    "500" 500 [true] (by decide) (by decide) (by decide)).1 (by decide)

/-- C3: a validated `start` performs, in a single step, the transition
to Charging with `startedAt = now` and the accepted duration, exactly
one HIGH pin write, and the success reply carrying that duration. -/
theorem charge_success_atomic (s : SystemState) (now : Nat) (str : String)
    (hidle : s.isCharging = false)
    (hlo : 100 ≤ arduinoToInt str) (hhi : arduinoToInt str ≤ 60000) :
    handleCharge s now (some str) =
      { result := .success (arduinoToInt str),
        state := SystemState.mk true now (arduinoToInt str).toNat true,
        writes := [true] } := by
  rw [handleCharge_idle_some s now str hidle,
    if_neg (by push_neg; exact ⟨hlo, hhi⟩)]

/-- C3 witness: `start(500)` from the initial state at reading 7. -/
theorem charge_success_atomic_witness :
    handleCharge initialState 7 (some "500") =
      { result := .success 500,
        state := SystemState.mk true 7 500 true,
        writes := [true] } :=
  charge_success_atomic initialState 7 "500" rfl (by decide) (by decide)

/-- C4: with no cycle in progress and the argument present, the reply is
the out-of-range 400 exactly when the parsed value falls outside
`[100, 60000]`; that failure leaves the state untouched and writes no
pin, and an in-range parsed value is accepted. -/
theorem charge_range_enforcement (s : SystemState) (now : Nat) (str : String)
    (hidle : s.isCharging = false) :
    ((handleCharge s now (some str)).result = .timeOutOfRange ↔
        (arduinoToInt str < 100 ∨ arduinoToInt str > 60000)) ∧
    (arduinoToInt str < 100 ∨ arduinoToInt str > 60000 →
        handleCharge s now (some str) =
          { result := .timeOutOfRange, state := s, writes := [] }) ∧
    (100 ≤ arduinoToInt str ∧ arduinoToInt str ≤ 60000 →
        (handleCharge s now (some str)).result =
          .success (arduinoToInt str)) ∧
    ChargeResult.timeOutOfRange.httpCode = 400 := by
  rw [handleCharge_idle_some s now str hidle]
  refine ⟨?_, ?_, ?_, rfl⟩
  · constructor
    · intro h
      by_contra hc
      rw [if_neg hc] at h
      exact absurd h (by simp)
    · intro h
      rw [if_pos h]
  · intro h
    rw [if_pos h]
  · intro ⟨h1, h2⟩
    rw [if_neg (by push_neg; exact ⟨h1, h2⟩)]

/-- C4 witness: both rejected boundary neighbours and both accepted
boundaries, from the initial state. -/
theorem charge_range_enforcement_witness :
    (handleCharge initialState 0 (some "99")).result = .timeOutOfRange ∧
    (handleCharge initialState 0 (some "60001")).result = .timeOutOfRange ∧
    (handleCharge initialState 0 (some "100")).result = .success 100 ∧
    (handleCharge initialState 0 (some "60000")).result = .success 60000 :=
  ⟨(charge_range_enforcement initialState 0 "99" rfl).1.mpr (by decide),
   (charge_range_enforcement initialState 0 "60001" rfl).1.mpr (by decide),
   (charge_range_enforcement initialState 0 "100" rfl).2.2.1
     ⟨by decide, by decide⟩,
   (charge_range_enforcement initialState 0 "60000" rfl).2.2.1
     ⟨by decide, by decide⟩⟩

/-- C5 counterexample: the present but unparseable argument string abc
goes through `toInt`, parses to 0, and is rejected by the range check of
line 125 with the out-of-range 400 reply of line 126 — not by the
missing-parameter branch of lines 115-118, whose reply is distinct. -/
theorem charge_unparseable_counterexample :
    arduinoToInt "abc" = 0 ∧
    handleCharge initialState 0 (some "abc") =
      { result := .timeOutOfRange, state := initialState, writes := [] } ∧
    ChargeResult.timeOutOfRange ≠ ChargeResult.missingTimeParam := by
  refine ⟨by decide, by decide, by decide⟩

/-- C5 amended: an absent argument fails with the missing-parameter 400
reply; a present argument that parses to 0 (as every unparseable string
does under `toInt`) fails with the out-of-range 400 reply; neither
failure mutates any state field or writes the pin. -/
theorem charge_invalid_argument (s : SystemState) (now : Nat)
    (hidle : s.isCharging = false) :
    handleCharge s now none =
      { result := .missingTimeParam, state := s, writes := [] } ∧
    (∀ str : String, arduinoToInt str = 0 →
        handleCharge s now (some str) =
          { result := .timeOutOfRange, state := s, writes := [] }) ∧
    ChargeResult.missingTimeParam.httpCode = 400 ∧
    ChargeResult.timeOutOfRange.httpCode = 400 := by
  refine ⟨by simp [handleCharge, hidle], ?_, rfl, rfl⟩
  intro str hz
  rw [handleCharge_idle_some s now str hidle, if_pos (by rw [hz]; left; decide)]

/-- C5 witness: the amended behaviour at the initial state, for an
absent argument and for the unparseable argument abc. -/
theorem charge_invalid_argument_witness :
    handleCharge initialState 4 none =
      { result := .missingTimeParam, state := initialState, writes := [] } ∧
    handleCharge initialState 4 (some "abc") =
      { result := .timeOutOfRange, state := initialState, writes := [] } :=
  ⟨(charge_invalid_argument initialState 4 rfl).1,
   (charge_invalid_argument initialState 4 rfl).2.1 "abc" (by decide)⟩

/-- C6: `stop` always answers 200, always performs exactly one LOW pin
write, and from any state whatsoever two consecutive calls both succeed
and leave the controller Idle with the pin LOW. -/
theorem stop_idempotent (s : SystemState) :
    (handleStop s).result.httpCode = 200 ∧
    (handleStop s).writes = [false] ∧
    (handleStop s).state.isCharging = false ∧
    (handleStop s).state.pinHigh = false ∧
    (handleStop (handleStop s).state).result = .confirmedIdle ∧
    (handleStop (handleStop s).state).result.httpCode = 200 ∧
    (handleStop (handleStop s).state).writes = [false] ∧
    (handleStop (handleStop s).state).state.isCharging = false ∧
    (handleStop (handleStop s).state).state.pinHigh = false := by
  cases hci : s.isCharging <;>
    simp [handleStop, hci, StopResult.httpCode]

/-- C7: while Idle, `status` reports the live pin level, whatever it is;
in particular right after a `stop` issued during a charging cycle it
reports idle with the pin LOW. -/
theorem state_idle_live_read (s : SystemState) (now : Nat)
    (hidle : s.isCharging = false) :
    handleState s now = .idle s.pinHigh ∧
    (∀ s' : SystemState, s'.isCharging = true →
        handleState (handleStop s').state now = .idle false) := by
  constructor
  · simp [handleState, hidle]
  · intro s' h
    simp [handleState, handleStop, h]

/-- C7 witness: an idle state whose pin was raised out of band is
reported HIGH from the live read, and `status` right after stopping a
charging cycle reports idle LOW. -/
theorem state_idle_live_read_witness :
    handleState ⟨false, 0, 0, true⟩ 5 = .idle true ∧
    handleState (handleStop ⟨true, 0, 500, true⟩).state 5 = .idle false :=
  ⟨(state_idle_live_read ⟨false, 0, 0, true⟩ 5 rfl).1,
   (state_idle_live_read ⟨false, 0, 0, true⟩ 5 rfl).2 ⟨true, 0, 500, true⟩ rfl⟩

/-- C8: with start and query readings taken from the wrapping 32-bit
clock less than one wrap apart, the unsigned modular subtraction
recovers the true elapsed time, the remaining time is the clamped
difference `max 0 (duration - elapsed)`, and a tick completes the cycle
precisely when the true elapsed time has reached the duration — even
when the two readings straddle the wrap point. -/
theorem wraparound_safety (T t d : Nat) (pin : Bool)
    (hTt : T ≤ t) (hwin : t - T < ulMod) :
    timeElapsed (SystemState.mk true (T % ulMod) d pin) (t % ulMod) =
      t - T ∧
    (timeRemaining (SystemState.mk true (T % ulMod) d pin) (t % ulMod) : Int)
      = max 0 ((d : Int) - ((t : Int) - (T : Int))) ∧
    ((monitorChargeState (SystemState.mk true (T % ulMod) d pin)
        (t % ulMod)).state.isCharging = false ↔ t - T ≥ d) := by
  have he : timeElapsed (SystemState.mk true (T % ulMod) d pin) (t % ulMod)
      = t - T := usub_mod_eq T t hTt hwin
  have hrem : timeRemaining (SystemState.mk true (T % ulMod) d pin)
      (t % ulMod) = d - (t - T) := by
    dsimp only [timeRemaining]
    rw [he]
    split <;> omega
  refine ⟨he, ?_, ?_⟩
  · rw [hrem]
    rcases le_or_lt ((t : Int) - (T : Int)) (d : Int) with h | h
    · rw [max_eq_right (by omega)]
      omega
    · rw [max_eq_left (by omega)]
      omega
  · dsimp only [monitorChargeState]
    rw [he]
    by_cases hd : t - T ≥ d
    · simp [hd]
    · simp [hd]

/-- C8 witness: a cycle started at reading `2^32 - 100` and queried at
reading 100 (absolute time `2^32 + 100`, straddling the wrap) measures
200 ms elapsed and is completed by the tick, its 150 ms duration having
passed. -/
theorem wraparound_safety_witness :
    timeElapsed (SystemState.mk true (4294967196 % ulMod) 150 true)
      (4294967396 % ulMod) = 200 ∧
    (monitorChargeState (SystemState.mk true (4294967196 % ulMod) 150 true)
      (4294967396 % ulMod)).state.isCharging = false :=
  ⟨(wraparound_safety 4294967196 4294967396 150 true
      (by decide) (by decide)).1,
   (wraparound_safety 4294967196 4294967396 150 true
      (by decide) (by decide)).2.2.mpr (by decide)⟩

/-- C9: `stop` never touches the timing fields: in both branches the
successor state keeps `chargeStartTime` and `chargeDurationMs` exactly
as they were. -/
theorem stop_timing_frame (s : SystemState) :
    (handleStop s).state.chargeStartTime = s.chargeStartTime ∧
    (handleStop s).state.chargeDurationMs = s.chargeDurationMs := by
  cases hci : s.isCharging <;> simp [handleStop, hci]

/-- C10: while Charging, `status` reports level HIGH unconditionally —
the reply is the same whatever the physical pin holds, so an
out-of-band LOW pin is still reported HIGH; the live read only informs
the Idle branch. -/
theorem state_charging_cached_level (s : SystemState) (now : Nat)
    (hch : s.isCharging = true) :
    handleState s now =
      .charging true s.chargeDurationMs (timeRemaining s now) ∧
    (∀ b b' : Bool,
        handleState { s with pinHigh := b } now =
          handleState { s with pinHigh := b' } now) := by
  constructor
  · simp [handleState, hch]
  · intro b b'
    simp [handleState, hch, timeRemaining, timeElapsed]

/-- C10 witness: a charging state whose pin was forced LOW out of band
is still reported as charging with level HIGH. -/
theorem state_charging_cached_level_witness :
    handleState ⟨true, 0, 500, false⟩ 0 = .charging true 500 500 :=
  (state_charging_cached_level ⟨true, 0, 500, false⟩ 0 rfl).1
